import Mathlib

/-!
Shallow embedding of the webssh npm launcher (`bin/webssh.js`) and its
provisioning script (`scripts/postinstall.js`), together with theorems
checking the natural-language specification against this embedding.

Modelling conventions:
* JavaScript numbers produced by `parseInt(·, 10)` are either integers or
  `NaN`; they are embedded as `Option Int` with `none` standing for `NaN`.
* `fs.existsSync` checks on the two interpreter subpaths are embedded as two
  booleans of a `VenvState`.
* `spawnSync(cmd, ['--version'])` probes are embedded as a function
  `String → ProbeResult` giving the probed command's exit status and stdout.
* `execSync cmd` calls are embedded as a function `String → Option String`:
  `none` means the command succeeded, `some msg` means it threw an exception
  whose `message` is `msg`.
* The supervisor's event handlers (`proc.on('error')`, `proc.on('close')`,
  `process.on('SIGINT'/'SIGTERM')`) are embedded as a step function on a
  supervisor state, emitting the list of actions each handler performs.
-/

namespace WebSSH

/-- JS `parseInt(s, 10)`: skip leading whitespace, optional sign, then the
longest prefix of decimal digits; `none` models `NaN` (no digits). -/
def jsParseInt (s : String) : Option Int :=
  let cs := s.toList.dropWhile (fun c => c = ' ' ∨ c = '\t' ∨ c = '\n' ∨ c = '\r')
  match cs with
  | '-' :: rest =>
      let digits := rest.takeWhile Char.isDigit
      if digits.isEmpty then none
      else some (-(digits.foldl (fun acc c => acc * 10 + (c.toNat - 48)) 0 : Nat))
  | '+' :: rest =>
      let digits := rest.takeWhile Char.isDigit
      if digits.isEmpty then none
      else some ((digits.foldl (fun acc c => acc * 10 + (c.toNat - 48)) 0 : Nat))
  | _ =>
      let digits := cs.takeWhile Char.isDigit
      if digits.isEmpty then none
      else some ((cs.takeWhile Char.isDigit).foldl (fun acc c => acc * 10 + (c.toNat - 48)) 0 : Nat)

/-- JS `Number.prototype.toString` on the values `port` can take:
`NaN` prints as `"NaN"`, integers print in decimal. -/
def jsNumToString : Option Int → String
  | none => "NaN"
  | some n => toString n

/-- Result of the argument loop of `bin/webssh.js` (lines 28–53): either the
help branch called `process.exit(0)`, or the loop finished with the final
`port` (JS number, `none` = `NaN`) and `configPath` (`none` = null/undefined). -/
inductive ParseOutcome
  | help
  | done (port : Option Int) (configPath : Option String)
deriving DecidableEq

/-- The argument loop of `bin/webssh.js`. `-p or --port` stores
`parseInt(args[i+1], 10)` and skips the value slot (`parseInt(undefined, 10)`
is `NaN` when the value is missing); `-c or --config` stores `args[i+1]`
(undefined, i.e. `none`, when missing) and skips the value slot; `-h or --help`
exits immediately; any other token is ignored. -/
def parseArgs : List String → Option Int → Option String → ParseOutcome
  | [], port, config => .done port config
  | [a], port, config =>
      if a = "-p" ∨ a = "--port" then .done none config
      else if a = "-c" ∨ a = "--config" then .done port none
      else if a = "-h" ∨ a = "--help" then .help
      else .done port config
  | a :: b :: rest, port, config =>
      if a = "-p" ∨ a = "--port" then parseArgs rest (jsParseInt b) config
      else if a = "-c" ∨ a = "--config" then parseArgs rest port (some b)
      else if a = "-h" ∨ a = "--help" then .help
      else parseArgs (b :: rest) port config

/-- Existence of the two possible interpreter binaries inside `.venv`:
`binPython` is `fs.existsSync(path.join(venvDir, 'bin', 'python'))` and
`scriptsPython` is `fs.existsSync(path.join(venvDir, 'Scripts', 'python.exe'))`. -/
structure VenvState where
  binPython : Bool
  scriptsPython : Bool
deriving DecidableEq

/-- Which interpreter subpath was resolved. -/
inductive InterpPath
  | posix
  | windows
deriving DecidableEq

/-- Interpreter resolution of `bin/webssh.js` lines 12–17: the POSIX subpath
`.venv/bin/python` is checked first, the Windows subpath
`.venv/Scripts/python.exe` second; `none` means neither exists. -/
def resolvePythonExe (st : VenvState) : Option InterpPath :=
  if st.binPython then some .posix
  else if st.scriptsPython then some .windows
  else none

/-- The two environment variables the launcher may add for the child
(`WEBSSH_PORT`, `WEBSSH_CONFIG`); `none` means the variable is absent. -/
structure ChildEnv where
  wsshPort : Option String
  wsshConfig : Option String
deriving DecidableEq

/-- Lines 56–62 of `bin/webssh.js`: `WEBSSH_PORT` is set to `port.toString()`
when `port !== 8765` (note `NaN !== 8765` is true); `WEBSSH_CONFIG` is set to
`configPath` when `configPath` is truthy (not null/undefined and not `""`). -/
def buildEnv (port : Option Int) (config : Option String) : ChildEnv :=
  { wsshPort := if port ≠ some 8765 then some (jsNumToString port) else none
  , wsshConfig :=
      match config with
      | none => none
      | some p => if p = "" then none else some p }

/-- Terminal outcome of one launcher invocation, up to the spawn call. -/
inductive MainOutcome
  | envMissing
  | helpExit
  | spawned (exe : InterpPath) (env : ChildEnv)
deriving DecidableEq

/-- Whether a `MainOutcome` reached the spawn call. -/
def MainOutcome.isSpawned : MainOutcome → Bool
  | .spawned _ _ => true
  | _ => false

/-- Outcome of an invocation together with the exit code set so far
(`none` while the child is still supervised) and the lines written to
stdout/stderr before spawning. -/
structure MainResult where
  outcome : MainOutcome
  exitCode : Option Int
  stdout : List String
  stderr : List String
deriving DecidableEq

/-- The usage text printed by the `-h or --help` branch. -/
def usageText : String :=
  "\nWebSSH - Touch-friendly web-based terminal\n\nUsage: webssh [options]\n\nOptions:\n  -p, --port <port>    Port to listen on (default: 8765)\n  -c, --config <path>  Path to config.json\n  -h, --help           Show this help message\n\nExample:\n  webssh\n  webssh -p 8080\n  webssh -c /path/to/config.json\n"

/-- Top-level control flow of `bin/webssh.js`: resolve the interpreter
binary (exiting 1 with a remediation message if the virtual environment is
missing — this happens before any argument is examined), then run the
argument loop (the help branch exits 0), then build the child environment
and spawn the backend. -/
def main (st : VenvState) (argv : List String) : MainResult :=
  match resolvePythonExe st with
  | none =>
      { outcome := .envMissing
      , exitCode := some 1
      , stdout := []
      , stderr := ["Error: Python virtual environment not found.",
                   "Please run: npm run postinstall"] }
  | some exe =>
      match parseArgs argv (some 8765) none with
      | .help =>
          { outcome := .helpExit
          , exitCode := some 0
          , stdout := [usageText]
          , stderr := [] }
      | .done port config =>
          { outcome := .spawned exe (buildEnv port config)
          , exitCode := none
          , stdout := ["Starting WebSSH on port " ++ jsNumToString port ++ "...",
                       "Open http://localhost:" ++ jsNumToString port ++ "/ in your browser"]
          , stderr := [] }

/-! Supervisor event handlers (`bin/webssh.js` lines 74–90). -/

/-- The two signals the supervisor installs handlers for. -/
inductive Sig
  | sigint
  | sigterm
deriving DecidableEq

/-- Events the supervisor can observe: a spawn failure (`'error'` with the
error message), the child closing (`'close'` with its exit code, `none` when
the child was killed by a signal), or a signal delivered to the supervisor. -/
inductive SupEvent
  | spawnError (msg : String)
  | close (code : Option Int)
  | signal (s : Sig)
deriving DecidableEq

/-- Actions a handler performs: forward a signal to the child via
`proc.kill`, log a line to stderr, or call `process.exit`. -/
inductive SupAction
  | forwardSignal (s : Sig)
  | logError (msg : String)
  | exitWith (code : Int)
deriving DecidableEq

/-- Supervisor lifecycle state: `running` while the handlers are live,
`exited c` after `process.exit(c)` from the close handler, `failed` after
`process.exit(1)` from the error handler. -/
inductive SupState
  | running
  | failed
  | exited (code : Int)
deriving DecidableEq

/-- JS `code || 0` on a number-or-null exit code: null and 0 are falsy. -/
def jsOrZero : Option Int → Int
  | none => 0
  | some c => if c = 0 then 0 else c

/-- One event dispatch: mirrors the three handlers registered in
`bin/webssh.js`. A signal is forwarded verbatim by `proc.kill` and nothing
else happens; `close(code)` exits with `code || 0`; `'error'` logs the
failure and exits 1. After an exit, no handler runs any more. -/
def handleEvent : SupState → SupEvent → SupState × List SupAction
  | .running, .signal s => (.running, [.forwardSignal s])
  | .running, .close c => (.exited (jsOrZero c), [.exitWith (jsOrZero c)])
  | .running, .spawnError msg =>
      (.failed, [.logError ("Failed to start WebSSH: " ++ msg), .exitWith 1])
  | st, _ => (st, [])

/-- Run a sequence of events, concatenating the actions performed. -/
def runEvents : SupState → List SupEvent → SupState × List SupAction
  | st, [] => (st, [])
  | st, e :: es =>
      let p := handleEvent st e
      let q := runEvents p.1 es
      (q.1, p.2 ++ q.2)

/-! Provisioning script (`scripts/postinstall.js`). -/

/-- Result of `spawnSync(cmd, ['--version'], { encoding: 'utf-8' })`:
the exit status (`none` when the process could not be spawned) and the
captured stdout. -/
structure ProbeResult where
  status : Option Int
  stdout : String

/-- Boolean infix test on character lists (model of JS `String.includes`). -/
def charsInfix : List Char → List Char → Bool
  | pat, [] => pat.isEmpty
  | pat, c :: rest => pat.isPrefixOf (c :: rest) || charsInfix pat rest

/-- JS `s.includes(pat)`. -/
def strIncludes (s pat : String) : Bool :=
  charsInfix pat.toList s.toList

/-- The ordered candidate list probed by `findPython`. -/
def pythonCommands : List String := ["python3", "python"]

/-- Whether one candidate qualifies: its `--version` probe exited with
status 0 and its stdout contains `"Python 3"`. -/
def probeOk (probe : String → ProbeResult) (cmd : String) : Bool :=
  (probe cmd).status == some 0 && strIncludes (probe cmd).stdout "Python 3"

/-- `findPython` of `scripts/postinstall.js`: the first candidate in
`['python3', 'python']` whose probe qualifies, else `null`. -/
def findPython (probe : String → ProbeResult) : Option String :=
  pythonCommands.find? (probeOk probe)

/-- `hasUv` of `scripts/postinstall.js`: the `uv --version` probe exited
with status 0. -/
def hasUv (probe : String → ProbeResult) : Bool :=
  (probe "uv").status == some 0

/-- The installer selected for provisioning. -/
inductive Installer
  | uv
  | pip
deriving DecidableEq

/-- The `uv venv "<venvDir>"` command string. -/
def uvVenvCmd (venvDir : String) : String :=
  "uv venv \"" ++ venvDir ++ "\""

/-- The `uv pip install --python "<venvDir>" fastapi uvicorn websockets`
command string: uv is driven through `--python` indirection, with no
per-platform executable path. -/
def uvInstallCmd (venvDir : String) : String :=
  "uv pip install --python \"" ++ venvDir ++ "\" fastapi uvicorn websockets"

/-- The `<python> -m venv "<venvDir>"` command string of the pip branch. -/
def pipVenvCmd (python venvDir : String) : String :=
  python ++ " -m venv \"" ++ venvDir ++ "\""

/-- `path.join(venvDir, 'Scripts', 'pip.exe')` on Windows,
`path.join(venvDir, 'bin', 'pip')` otherwise (platform separator). -/
def pipPath (isWindows : Bool) (venvDir : String) : String :=
  if isWindows then venvDir ++ "\\Scripts\\pip.exe"
  else venvDir ++ "/bin/pip"

/-- The `"<pipPath>" install fastapi uvicorn websockets` command string. -/
def pipInstallCmd (isWindows : Bool) (venvDir : String) : String :=
  "\"" ++ pipPath isWindows venvDir ++ "\" install fastapi uvicorn websockets"

/-- Terminal outcome of one provisioning run. -/
inductive PostOutcome
  | noPython
  | provisionFailed (ins : Installer)
  | success (python : String) (ins : Installer)
deriving DecidableEq

/-- Outcome of a provisioning run with its exit code, the `execSync`
commands attempted in order, and the stderr lines produced. -/
structure PostResult where
  outcome : PostOutcome
  exitCode : Int
  executed : List String
  stderr : List String
deriving DecidableEq

/-- Top-level control flow of `scripts/postinstall.js`: find a Python 3,
exit 1 with a remediation message if none qualifies; otherwise pick uv when
its probe succeeds, else pip; run the two provisioning commands of the
chosen branch with `execSync`, and on the first failure report the message
and exit 1 (no cleanup command is ever issued). -/
def postinstall (isWindows : Bool) (venvDir : String)
    (probe : String → ProbeResult) (exec : String → Option String) : PostResult :=
  match findPython probe with
  | none =>
      { outcome := .noPython
      , exitCode := 1
      , executed := []
      , stderr := ["Error: Python 3 is required but not found.",
                   "Please install Python 3.10 or later."] }
  | some python =>
      if hasUv probe then
        match exec (uvVenvCmd venvDir) with
        | some msg =>
            { outcome := .provisionFailed .uv
            , exitCode := 1
            , executed := [uvVenvCmd venvDir]
            , stderr := ["Failed to set up environment with uv: " ++ msg] }
        | none =>
            match exec (uvInstallCmd venvDir) with
            | some msg =>
                { outcome := .provisionFailed .uv
                , exitCode := 1
                , executed := [uvVenvCmd venvDir, uvInstallCmd venvDir]
                , stderr := ["Failed to set up environment with uv: " ++ msg] }
            | none =>
                { outcome := .success python .uv
                , exitCode := 0
                , executed := [uvVenvCmd venvDir, uvInstallCmd venvDir]
                , stderr := [] }
      else
        match exec (pipVenvCmd python venvDir) with
        | some msg =>
            { outcome := .provisionFailed .pip
            , exitCode := 1
            , executed := [pipVenvCmd python venvDir]
            , stderr := ["Failed to set up environment with pip: " ++ msg] }
        | none =>
            match exec (pipInstallCmd isWindows venvDir) with
            | some msg =>
                { outcome := .provisionFailed .pip
                , exitCode := 1
                , executed := [pipVenvCmd python venvDir, pipInstallCmd isWindows venvDir]
                , stderr := ["Failed to set up environment with pip: " ++ msg] }
            | none =>
                { outcome := .success python .pip
                , exitCode := 0
                , executed := [pipVenvCmd python venvDir, pipInstallCmd isWindows venvDir]
                , stderr := [] }

/-- Probe under which no candidate command can be spawned at all. -/
def probeNothing : String → ProbeResult := fun _ => ⟨none, ""⟩

/-- Probe under which `python3` qualifies but the `uv` probe exits 1. -/
def uvAbsentProbe : String → ProbeResult :=
  fun c => if c = "uv" then ⟨some 1, ""⟩ else ⟨some 0, "Python 3.12.1"⟩

/-- Probe under which every command (including `uv`) exits 0 reporting
a Python 3 version. -/
def uvPresentProbe : String → ProbeResult := fun _ => ⟨some 0, "Python 3.12.1"⟩

/-- An `execSync` model in which every command succeeds. -/
def execAllOk : String → Option String := fun _ => none

/-- An `execSync` model in which every command throws with message `boom`. -/
def execFailAll : String → Option String := fun _ => some "boom"

/-! Helper lemmas shared by the claim theorems. -/

theorem jsOrZero_some (c : Int) : jsOrZero (some c) = c := by
  by_cases hc : c = 0 <;> simp [jsOrZero, hc]

theorem parseArgs_help_mem (argv : List String) (port : Option Int)
    (config : Option String) (h : parseArgs argv port config = ParseOutcome.help) :
    "-h" ∈ argv ∨ "--help" ∈ argv := by
  revert h
  induction argv, port, config using parseArgs.induct with
  | case1 port config => intro h; simp [parseArgs] at h
  | case2 a port config h1 =>
      intro h; simp only [parseArgs] at h; rw [if_pos h1] at h; simp at h
  | case3 a port config h1 h2 =>
      intro h; simp only [parseArgs] at h; rw [if_neg h1, if_pos h2] at h; simp at h
  | case4 a port config h1 h2 h3 =>
      intro h; rcases h3 with h3 | h3 <;> subst h3 <;> simp
  | case5 a port config h1 h2 h3 =>
      intro h; simp only [parseArgs] at h
      rw [if_neg h1, if_neg h2, if_neg h3] at h; simp at h
  | case6 a b rest port config h1 ih =>
      intro h; simp only [parseArgs] at h; rw [if_pos h1] at h
      rcases ih h with hm | hm
      · exact Or.inl (List.mem_cons_of_mem a (List.mem_cons_of_mem b hm))
      · exact Or.inr (List.mem_cons_of_mem a (List.mem_cons_of_mem b hm))
  | case7 a b rest port config h1 h2 ih =>
      intro h; simp only [parseArgs] at h; rw [if_neg h1, if_pos h2] at h
      rcases ih h with hm | hm
      · exact Or.inl (List.mem_cons_of_mem a (List.mem_cons_of_mem b hm))
      · exact Or.inr (List.mem_cons_of_mem a (List.mem_cons_of_mem b hm))
  | case8 a b rest port config h1 h2 h3 =>
      intro h; rcases h3 with h3 | h3 <;> subst h3 <;> simp
  | case9 a b rest port config h1 h2 h3 ih =>
      intro h; simp only [parseArgs] at h
      rw [if_neg h1, if_neg h2, if_neg h3] at h
      rcases ih h with hm | hm
      · exact Or.inl (List.mem_cons_of_mem a hm)
      · exact Or.inr (List.mem_cons_of_mem a hm)

/-- Claim C1, counterexample: invoking with `-c ""` (a config path was
provided, namely the empty string) reaches the spawn step, yet the child
environment contains no `WEBSSH_CONFIG` variable at all — the code guards
the export with JS truthiness, and the empty string is falsy. This refutes
the claimed equivalence "contains WEBSSH_CONFIG iff a config path was
provided via -c or --config". -/
theorem claim1_counterexample :
    (main ⟨true, false⟩ ["-c", ""]).outcome
      = MainOutcome.spawned .posix ⟨none, none⟩ := by decide

/-- Claim C1 as amended: for every invocation that reaches the spawn step,
with `port` and `config` the results of the argument loop, `WEBSSH_PORT` is
absent iff the parsed port equals 8765, and otherwise holds the decimal
string of the parsed port (the string `NaN` when parsing failed); and
`WEBSSH_CONFIG` is absent iff the config path is null/undefined or the empty
string, and otherwise holds exactly the provided path. -/
theorem claim1_theorem (st : VenvState) (argv : List String) (exe : InterpPath)
    (env : ChildEnv) (port : Option Int) (config : Option String)
    (hspawn : (main st argv).outcome = MainOutcome.spawned exe env)
    (hparse : parseArgs argv (some 8765) none = ParseOutcome.done port config) :
    (env.wsshPort = none ↔ port = some 8765)
    ∧ (port ≠ some 8765 → env.wsshPort = some (jsNumToString port))
    ∧ (env.wsshConfig = none ↔ (config = none ∨ config = some ""))
    ∧ (config ≠ none → config ≠ some "" → env.wsshConfig = config) := by
  have henv : env = buildEnv port config := by
    cases hre : resolvePythonExe st with
    | none => simp [main, hre] at hspawn
    | some e =>
        simp [main, hre, hparse] at hspawn
        exact hspawn.2.symm
  subst henv
  refine ⟨?_, ?_, ?_, ?_⟩
  · by_cases hp : port = some 8765 <;> simp [buildEnv, hp]
  · intro hp; simp [buildEnv, hp]
  · cases config with
    | none => simp [buildEnv]
    | some p => by_cases hp : p = "" <;> simp [buildEnv, hp]
  · intro hc1 hc2
    cases config with
    | none => exact absurd rfl hc1
    | some p =>
        have hp : p ≠ "" := by intro he; exact hc2 (by rw [he])
        simp [buildEnv, hp]

/-- Claim C1, witness: the amended theorem applied to the invocation
`webssh -p 9000 -c /x` on a POSIX-provisioned host. -/
theorem claim1_witness :
    ((ChildEnv.mk (some "9000") (some "/x")).wsshPort = none
        ↔ (some (9000 : Int)) = some 8765)
    ∧ ((some (9000 : Int)) ≠ some 8765 →
        (ChildEnv.mk (some "9000") (some "/x")).wsshPort
          = some (jsNumToString (some (9000 : Int))))
    ∧ ((ChildEnv.mk (some "9000") (some "/x")).wsshConfig = none
        ↔ ((some "/x" : Option String) = none ∨ (some "/x" : Option String) = some ""))
    ∧ ((some "/x" : Option String) ≠ none → (some "/x" : Option String) ≠ some "" →
        (ChildEnv.mk (some "9000") (some "/x")).wsshConfig = some "/x") :=
  claim1_theorem ⟨true, false⟩ ["-p", "9000", "-c", "/x"] .posix
    ⟨some "9000", some "/x"⟩ (some 9000) (some "/x") (by decide) (by decide)

/-- Claim C2: the interpreter binary is resolved POSIX subpath first,
Windows subpath second; when neither exists the invocation prints the
remediation message pointing at `npm run postinstall` and exits 1 without
ever reaching the spawn step. -/
theorem claim2_theorem (st : VenvState) (argv : List String) :
    (st.binPython = true → resolvePythonExe st = some .posix)
    ∧ (st.binPython = false → st.scriptsPython = true →
        resolvePythonExe st = some .windows)
    ∧ (st.binPython = false → st.scriptsPython = false →
        (main st argv).outcome = MainOutcome.envMissing
        ∧ (main st argv).exitCode = some 1
        ∧ "Please run: npm run postinstall" ∈ (main st argv).stderr
        ∧ (main st argv).outcome.isSpawned = false) := by
  obtain ⟨b1, b2⟩ := st
  cases b1 <;> cases b2 <;>
    simp [resolvePythonExe, main, MainOutcome.isSpawned]

/-- Claim C2, witness: the concrete scenario of the spec — `-p 9000 -c
/tmp/cfg.json` on a host lacking any provisioned environment. -/
theorem claim2_witness :
    (main ⟨false, false⟩ ["-p", "9000", "-c", "/tmp/cfg.json"]).outcome
        = MainOutcome.envMissing
    ∧ (main ⟨false, false⟩ ["-p", "9000", "-c", "/tmp/cfg.json"]).exitCode = some 1
    ∧ "Please run: npm run postinstall"
        ∈ (main ⟨false, false⟩ ["-p", "9000", "-c", "/tmp/cfg.json"]).stderr
    ∧ (main ⟨false, false⟩ ["-p", "9000", "-c", "/tmp/cfg.json"]).outcome.isSpawned
        = false :=
  (claim2_theorem ⟨false, false⟩ ["-p", "9000", "-c", "/tmp/cfg.json"]).2.2 rfl rfl

/-- Claim C3, counterexample: on a host with no provisioned environment the
argument vector `["--help"]` does contain `--help`, yet the program exits 1
with the environment-missing error and prints no usage text — the virtual
environment check runs before any argument is examined. -/
theorem claim3_counterexample :
    "--help" ∈ ["--help"]
    ∧ (main ⟨false, false⟩ ["--help"]).exitCode = some 1
    ∧ (main ⟨false, false⟩ ["--help"]).outcome = MainOutcome.envMissing
    ∧ (main ⟨false, false⟩ ["--help"]).stdout = [] := by decide

/-- Claim C3 as amended: provided the interpreter binary resolution
succeeded (it runs before argument parsing) and the argument loop reaches a
`-h` or `--help` token (i.e. one not consumed as the value slot of a
preceding `-p` or `-c` flag), the program prints the usage text, exits 0,
and never reaches the spawn step; such an argument vector indeed contains
`-h` or `--help`. -/
theorem claim3_theorem (st : VenvState) (argv : List String) (exe : InterpPath)
    (hres : resolvePythonExe st = some exe)
    (hhelp : parseArgs argv (some 8765) none = ParseOutcome.help) :
    (main st argv).outcome = MainOutcome.helpExit
    ∧ (main st argv).exitCode = some 0
    ∧ (main st argv).stdout = [usageText]
    ∧ (main st argv).outcome.isSpawned = false
    ∧ ("-h" ∈ argv ∨ "--help" ∈ argv) := by
  refine ⟨?_, ?_, ?_, ?_, parseArgs_help_mem argv (some 8765) none hhelp⟩ <;>
    simp [main, hres, hhelp, MainOutcome.isSpawned]

/-- Claim C3, witness: the amended theorem applied to `webssh --help` on
a POSIX-provisioned host. -/
theorem claim3_witness :
    (main ⟨true, false⟩ ["--help"]).outcome = MainOutcome.helpExit
    ∧ (main ⟨true, false⟩ ["--help"]).exitCode = some 0
    ∧ (main ⟨true, false⟩ ["--help"]).stdout = [usageText]
    ∧ (main ⟨true, false⟩ ["--help"]).outcome.isSpawned = false
    ∧ ("-h" ∈ ["--help"] ∨ "--help" ∈ ["--help"]) :=
  claim3_theorem ⟨true, false⟩ ["--help"] .posix rfl rfl

/-- Claim C9: when the value following `-p` does not parse as an integer,
`parseInt` yields `NaN`; the argument loop never rejects any input, the
invocation still reaches the spawn step, and since `NaN !== 8765` the child
environment carries `WEBSSH_PORT` set to the string `NaN`. -/
theorem claim9_theorem (st : VenvState) (exe : InterpPath) (argv : List String)
    (config : Option String) (s : String)
    (hres : resolvePythonExe st = some exe)
    (hparse : parseArgs argv (some 8765) none = ParseOutcome.done none config)
    (hs : jsParseInt s = none) :
    parseArgs ["-p", s] (some 8765) none = ParseOutcome.done none none
    ∧ (main st argv).outcome = MainOutcome.spawned exe (buildEnv none config)
    ∧ (buildEnv none config).wsshPort = some "NaN"
    ∧ (main st argv).outcome.isSpawned = true := by
  refine ⟨?_, ?_, ?_, ?_⟩
  · simp [parseArgs, hs]
  · simp [main, hres, hparse]
  · simp [buildEnv, jsNumToString]
  · simp [main, hres, hparse, MainOutcome.isSpawned]

/-- Claim C9, witness: the theorem applied to `webssh -p abc` on a
POSIX-provisioned host. -/
theorem claim9_witness :
    parseArgs ["-p", "abc"] (some 8765) none = ParseOutcome.done none none
    ∧ (main ⟨true, false⟩ ["-p", "abc"]).outcome
        = MainOutcome.spawned .posix (buildEnv none none)
    ∧ (buildEnv none none).wsshPort = some "NaN"
    ∧ (main ⟨true, false⟩ ["-p", "abc"]).outcome.isSpawned = true :=
  claim9_theorem ⟨true, false⟩ .posix ["-p", "abc"] none "abc"
    (by decide) (by decide) (by decide)

/-- Claim C4: while the child is running, any sequence of SIGINT/SIGTERM
deliveries is forwarded to the child verbatim, one `proc.kill` per received
signal with the same signal name, in order, with no other action; and when
the child then closes with exit code `c`, the supervisor exits with `c`. -/
theorem claim4_theorem (sigs : List Sig) (c : Int) :
    runEvents .running (sigs.map SupEvent.signal ++ [SupEvent.close (some c)])
      = (.exited c, sigs.map SupAction.forwardSignal ++ [SupAction.exitWith c]) := by
  induction sigs with
  | nil => simp [runEvents, handleEvent, jsOrZero_some]
  | cons s ss ih => simp [runEvents, handleEvent, ih]

/-- Claim C5: when the child closes with exit code `c`, the supervisor
exits with exactly `c`; when the spawn itself fails, the supervisor logs
the failure message and exits 1. -/
theorem claim5_theorem (c : Int) (msg : String) :
    runEvents .running [SupEvent.close (some c)]
        = (.exited c, [SupAction.exitWith c])
    ∧ runEvents .running [SupEvent.spawnError msg]
        = (.failed, [SupAction.logError ("Failed to start WebSSH: " ++ msg),
                     SupAction.exitWith 1]) := by
  constructor <;> simp [runEvents, handleEvent, jsOrZero_some]

/-- Claim C10: a `close` event reporting a null exit code (signal-killed
child) makes the supervisor exit 0 — `code || 0` — so it is
indistinguishable from a child that exited successfully with code 0. -/
theorem claim10_theorem :
    runEvents .running [SupEvent.close none] = (.exited 0, [SupAction.exitWith 0])
    ∧ runEvents .running [SupEvent.close none]
        = runEvents .running [SupEvent.close (some 0)] := by decide

/-- Claim C6: `findPython` selects the first of `['python3', 'python']`
whose `--version` probe exits 0 with stdout reporting `Python 3`; when
neither qualifies, provisioning stops with exit code 1, the remediation
message telling the user to install Python 3.10+, and no command executed. -/
theorem claim6_theorem (probe : String → ProbeResult) (isWindows : Bool)
    (venvDir : String) (exec : String → Option String) :
    (probeOk probe "python3" = true → findPython probe = some "python3")
    ∧ (probeOk probe "python3" = false → probeOk probe "python" = true →
        findPython probe = some "python")
    ∧ (probeOk probe "python3" = false → probeOk probe "python" = false →
        findPython probe = none
        ∧ (postinstall isWindows venvDir probe exec).outcome = PostOutcome.noPython
        ∧ (postinstall isWindows venvDir probe exec).exitCode = 1
        ∧ "Please install Python 3.10 or later."
            ∈ (postinstall isWindows venvDir probe exec).stderr
        ∧ (postinstall isWindows venvDir probe exec).executed = []) := by
  refine ⟨?_, ?_, ?_⟩
  · intro h1; simp [findPython, pythonCommands, List.find?, h1]
  · intro h1 h2; simp [findPython, pythonCommands, List.find?, h1, h2]
  · intro h1 h2
    have hnone : findPython probe = none := by
      simp [findPython, pythonCommands, List.find?, h1, h2]
    refine ⟨hnone, ?_, ?_, ?_, ?_⟩ <;> simp [postinstall, hnone]

/-- Claim C6, witness: the no-candidate branch under a probe where nothing
can be spawned. -/
theorem claim6_witness :
    findPython probeNothing = none
    ∧ (postinstall false "venv" probeNothing execAllOk).outcome
        = PostOutcome.noPython
    ∧ (postinstall false "venv" probeNothing execAllOk).exitCode = 1
    ∧ "Please install Python 3.10 or later."
        ∈ (postinstall false "venv" probeNothing execAllOk).stderr
    ∧ (postinstall false "venv" probeNothing execAllOk).executed = [] :=
  (claim6_theorem probeNothing false "venv" execAllOk).2.2 rfl rfl

/-- Claim C7: uv is selected iff its version probe exits 0; otherwise pip
is selected unconditionally — provisioning then starts with the venv
creation command and drives pip through its per-platform executable path
(`Scripts\pip.exe` under Windows, `bin/pip` otherwise), whereas uv is
driven uniformly through `--python` indirection; with pip selected and both
steps succeeding the run ends successfully (no error condition). -/
theorem claim7_theorem (probe : String → ProbeResult) (isWindows : Bool)
    (venvDir : String) (exec : String → Option String) (python : String)
    (hpy : findPython probe = some python) :
    (hasUv probe = true ↔ (probe "uv").status = some 0)
    ∧ ((probe "uv").status = some 0 →
        (postinstall isWindows venvDir probe exec).executed.head?
          = some (uvVenvCmd venvDir)
        ∧ (exec (uvVenvCmd venvDir) = none →
            (postinstall isWindows venvDir probe exec).executed
              = [uvVenvCmd venvDir,
                 "uv pip install --python \"" ++ venvDir
                   ++ "\" fastapi uvicorn websockets"]))
    ∧ ((probe "uv").status ≠ some 0 →
        hasUv probe = false
        ∧ (postinstall isWindows venvDir probe exec).executed.head?
            = some (pipVenvCmd python venvDir)
        ∧ (exec (pipVenvCmd python venvDir) = none →
            (postinstall isWindows venvDir probe exec).executed
              = [pipVenvCmd python venvDir,
                 "\"" ++ (if isWindows then venvDir ++ "\\Scripts\\pip.exe"
                          else venvDir ++ "/bin/pip")
                   ++ "\" install fastapi uvicorn websockets"])
        ∧ (exec (pipVenvCmd python venvDir) = none →
           exec (pipInstallCmd isWindows venvDir) = none →
            (postinstall isWindows venvDir probe exec).outcome
                = PostOutcome.success python .pip
            ∧ (postinstall isWindows venvDir probe exec).exitCode = 0)) := by
  refine ⟨by simp [hasUv], ?_, ?_⟩
  · intro huv
    have h1 : hasUv probe = true := by simp [hasUv, huv]
    constructor
    · cases hex : exec (uvVenvCmd venvDir) with
      | some msg => simp [postinstall, hpy, h1, hex]
      | none =>
          cases hex2 : exec (uvInstallCmd venvDir) with
          | some msg => simp [postinstall, hpy, h1, hex, hex2]
          | none => simp [postinstall, hpy, h1, hex, hex2]
    · intro hex
      have he : ("uv pip install --python \"" ++ venvDir
          ++ "\" fastapi uvicorn websockets") = uvInstallCmd venvDir := rfl
      rw [he]
      cases hex2 : exec (uvInstallCmd venvDir) with
      | some msg => simp [postinstall, hpy, h1, hex, hex2]
      | none => simp [postinstall, hpy, h1, hex, hex2]
  · intro huv
    have h1 : hasUv probe = false := by simp [hasUv, huv]
    refine ⟨h1, ?_, ?_, ?_⟩
    · cases hex : exec (pipVenvCmd python venvDir) with
      | some msg => simp [postinstall, hpy, h1, hex]
      | none =>
          cases hex2 : exec (pipInstallCmd isWindows venvDir) with
          | some msg => simp [postinstall, hpy, h1, hex, hex2]
          | none => simp [postinstall, hpy, h1, hex, hex2]
    · intro hex
      have he : ("\"" ++ (if isWindows then venvDir ++ "\\Scripts\\pip.exe"
            else venvDir ++ "/bin/pip") ++ "\" install fastapi uvicorn websockets")
          = pipInstallCmd isWindows venvDir := rfl
      rw [he]
      cases hex2 : exec (pipInstallCmd isWindows venvDir) with
      | some msg => simp [postinstall, hpy, h1, hex, hex2]
      | none => simp [postinstall, hpy, h1, hex, hex2]
    · intro hex hex2
      simp [postinstall, hpy, h1, hex, hex2]

/-- Claim C7, witness: the fallback branch under a probe where the uv
version probe exits 1 while `python3` qualifies, with every `execSync`
call succeeding, on a POSIX platform. -/
theorem claim7_witness :
    hasUv uvAbsentProbe = false
    ∧ (postinstall false "venv" uvAbsentProbe execAllOk).executed.head?
        = some (pipVenvCmd "python3" "venv")
    ∧ (execAllOk (pipVenvCmd "python3" "venv") = none →
        (postinstall false "venv" uvAbsentProbe execAllOk).executed
          = [pipVenvCmd "python3" "venv",
             "\"" ++ (if false then "venv" ++ "\\Scripts\\pip.exe"
                      else "venv" ++ "/bin/pip")
               ++ "\" install fastapi uvicorn websockets"])
    ∧ (execAllOk (pipVenvCmd "python3" "venv") = none →
       execAllOk (pipInstallCmd false "venv") = none →
        (postinstall false "venv" uvAbsentProbe execAllOk).outcome
            = PostOutcome.success "python3" .pip
        ∧ (postinstall false "venv" uvAbsentProbe execAllOk).exitCode = 0) :=
  (claim7_theorem uvAbsentProbe false "venv" execAllOk "python3" rfl).2.2
    (by decide)

/-- Claim C8: whenever the environment-creation step or the
dependency-installation step throws (the underlying child exited non-zero),
provisioning reports the underlying failure detail on stderr and stops with
exit code 1, and the list of commands ever executed is exactly the attempted
provisioning commands — no cleanup command is issued. -/
theorem claim8_theorem (isWindows : Bool) (venvDir : String)
    (probe : String → ProbeResult) (exec : String → Option String)
    (python msg : String) (hpy : findPython probe = some python) :
    (hasUv probe = true → exec (uvVenvCmd venvDir) = some msg →
        (postinstall isWindows venvDir probe exec).outcome
            = PostOutcome.provisionFailed .uv
        ∧ (postinstall isWindows venvDir probe exec).exitCode = 1
        ∧ (postinstall isWindows venvDir probe exec).stderr
            = ["Failed to set up environment with uv: " ++ msg]
        ∧ (postinstall isWindows venvDir probe exec).executed = [uvVenvCmd venvDir])
    ∧ (hasUv probe = true → exec (uvVenvCmd venvDir) = none →
       exec (uvInstallCmd venvDir) = some msg →
        (postinstall isWindows venvDir probe exec).outcome
            = PostOutcome.provisionFailed .uv
        ∧ (postinstall isWindows venvDir probe exec).exitCode = 1
        ∧ (postinstall isWindows venvDir probe exec).stderr
            = ["Failed to set up environment with uv: " ++ msg]
        ∧ (postinstall isWindows venvDir probe exec).executed
            = [uvVenvCmd venvDir, uvInstallCmd venvDir])
    ∧ (hasUv probe = false → exec (pipVenvCmd python venvDir) = some msg →
        (postinstall isWindows venvDir probe exec).outcome
            = PostOutcome.provisionFailed .pip
        ∧ (postinstall isWindows venvDir probe exec).exitCode = 1
        ∧ (postinstall isWindows venvDir probe exec).stderr
            = ["Failed to set up environment with pip: " ++ msg]
        ∧ (postinstall isWindows venvDir probe exec).executed
            = [pipVenvCmd python venvDir])
    ∧ (hasUv probe = false → exec (pipVenvCmd python venvDir) = none →
       exec (pipInstallCmd isWindows venvDir) = some msg →
        (postinstall isWindows venvDir probe exec).outcome
            = PostOutcome.provisionFailed .pip
        ∧ (postinstall isWindows venvDir probe exec).exitCode = 1
        ∧ (postinstall isWindows venvDir probe exec).stderr
            = ["Failed to set up environment with pip: " ++ msg]
        ∧ (postinstall isWindows venvDir probe exec).executed
            = [pipVenvCmd python venvDir, pipInstallCmd isWindows venvDir]) := by
  refine ⟨?_, ?_, ?_, ?_⟩ <;> intros <;> simp [postinstall, hpy, *]

/-- Claim C8, witness: the first provisioning step failing with message
`boom` under a probe where uv is present. -/
theorem claim8_witness :
    (postinstall false "venv" uvPresentProbe execFailAll).outcome
        = PostOutcome.provisionFailed .uv
    ∧ (postinstall false "venv" uvPresentProbe execFailAll).exitCode = 1
    ∧ (postinstall false "venv" uvPresentProbe execFailAll).stderr
        = ["Failed to set up environment with uv: " ++ "boom"]
    ∧ (postinstall false "venv" uvPresentProbe execFailAll).executed
        = [uvVenvCmd "venv"] :=
  (claim8_theorem false "venv" uvPresentProbe execFailAll "python3" "boom" rfl).1
    rfl rfl

end WebSSH
